import Mathlib

/-
Verification of the beam-analysis engine (src/js/beam-analysis.js) against its
natural-language specification.

The JavaScript source is shallowly embedded over exact rationals (ℚ):
* JS numbers become ℚ (the spec reads its formulas in exact real arithmetic;
  float-specific artifacts are outside the embedding).
* `x.toFixed(1)` / `x.toFixed(2)` followed by `parseFloat`, and
  `Math.round(v*100)/100`, both round half toward +∞ at the given number of
  decimals; they are modelled by `roundTo 1` / `roundTo 2`.
* The `while`/`for` loops of the samplers are modelled by structural recursion
  with a fuel parameter large enough for every terminating run; the simply
  supported loop `for (i = 0; i <= primarySpan; i += step)` is embedded
  literally and proved equal to an 11-point map for `primarySpan > 0`.
* JS `undefined` (reading `results[i-2]` before it exists) becomes `Option ℚ`;
  `results[i-1] || 0` becomes `getD _ 0`.
* A thrown `Error('Invalid condition')` becomes `Except.error "Invalid condition"`.
-/

set_option maxRecDepth 8000

attribute [local semireducible] Rat.add Rat.mul Rat.sub Rat.inv Rat.ofScientific

/-- Floor of a rational, computed on the numerator and denominator so that the
kernel can evaluate it (equal to `Int.floor`, see `ratFloor_eq_floor`). -/
def ratFloor (q : ℚ) : ℤ := q.num / q.den

/-- Ceiling of a rational, kernel-computable. -/
def ratCeil (q : ℚ) : ℤ := -ratFloor (-q)

/-- Round half toward +∞, kernel-computable (equal to Mathlib `round`). -/
def roundHalfUp (q : ℚ) : ℤ := ratFloor (q + 1 / 2)

/-- Rounding to `d` decimal places, as performed by JS
`parseFloat(v.toFixed(d))` and by `Math.round(v * 10^d) / 10^d`. -/
def roundTo (d : ℕ) (q : ℚ) : ℚ := (roundHalfUp (q * 10 ^ d) : ℤ) / 10 ^ d

/-- Truncation (toward zero) to `d` decimal places.  This is the literal
reading of the spec sentence "output values are truncated to one decimal
place"; the code actually rounds, see claim C7. -/
def truncTo (d : ℕ) (q : ℚ) : ℚ :=
  ((if 0 ≤ q then ratFloor (q * 10 ^ d) else ratCeil (q * 10 ^ d)) : ℤ) / 10 ^ d

/-- Beam material specification. JS: `Material(name, properties)` with
`properties = {EI, j2, ...}`; the two properties the analyzers read are
inlined as fields. -/
structure Material where
  name : String
  EI : ℚ
  j2 : ℚ

/-- JS `Beam(primarySpan, secondarySpan, material)`. -/
structure Beam where
  primarySpan : ℚ
  secondarySpan : ℚ
  material : Material

/-- The `{x: [...], y: [...]}` record every analyzer method returns. -/
structure ResponseCurve where
  x : List ℚ
  y : List ℚ

/-- The `{beam, load, equation}` record the `BeamAnalysis` methods return. -/
structure AnalysisResult where
  beam : Beam
  load : ℚ
  equation : ResponseCurve

namespace simplySupported

/-- The loop `for (let i = 0; i <= primarySpan; i += step)` shared by the three
simply-supported analyzer methods: at each iteration it pushes
`x = parseFloat(i.toFixed(1))` and the value `g x`.  `fuel` bounds the number
of iterations; every call in this file uses fuel 100, which is never exhausted
for a positive span (the loop runs exactly 11 times). -/
def ssLoop (g : ℚ → ℚ) (L step : ℚ) : ℕ → ℚ → List ℚ × List ℚ
  | 0, _ => ([], [])
  | fuel + 1, i =>
    if i ≤ L then
      let x := roundTo 1 i
      let rest := ssLoop g L step fuel (i + step)
      (x :: rest.1, g x :: rest.2)
    else ([], [])

/-- JS `simplySupported.getDeflectionEquation`:
`V = -((load*x)/(24*EI)) * (L^3 - 2*L*x^2 + x^3) * j2 * 1000`, pushed as
`parseFloat((V * 1000000000).toFixed(1))`. -/
def getDeflectionEquation (beam : Beam) (load : ℚ) : ResponseCurve :=
  let L := beam.primarySpan
  let EI := beam.material.EI
  let j2 := beam.material.j2
  let p := ssLoop
    (fun x => roundTo 1
      ((-((load * x) / (24 * EI)) * (L ^ 3 - 2 * L * x ^ 2 + x ^ 3) * j2 * 1000) * 1000000000))
    L (L / 10) 100 0
  ⟨p.1, p.2⟩

/-- JS `simplySupported.getBendingMomentEquation`:
`V = (load * x / 2) * (L - x) * -1`, pushed as `parseFloat(V.toFixed(1))`. -/
def getBendingMomentEquation (beam : Beam) (load : ℚ) : ResponseCurve :=
  let L := beam.primarySpan
  let p := ssLoop (fun x => roundTo 1 ((load * x / 2) * (L - x) * (-1))) L (L / 10) 100 0
  ⟨p.1, p.2⟩

/-- JS `simplySupported.getShearForceEquation`:
`V = load * ((L / 2) - x)`, pushed as `parseFloat(V.toFixed(1))`. -/
def getShearForceEquation (beam : Beam) (load : ℚ) : ResponseCurve :=
  let L := beam.primarySpan
  let p := ssLoop (fun x => roundTo 1 (load * (L / 2 - x))) L (L / 10) 100 0
  ⟨p.1, p.2⟩

end simplySupported

namespace twoSpanUnequal

/-- `M1 = -((w*L2^3) + (w*L1^3)) / (8*(L1+L2))`, the interior-support moment. -/
def M1 (L1 L2 w : ℚ) : ℚ := -((w * L2 ^ 3) + (w * L1 ^ 3)) / (8 * (L1 + L2))

/-- `R1 = M1/L1 + w*L1/2`, the left end reaction. -/
def R1 (L1 L2 w : ℚ) : ℚ := M1 L1 L2 w / L1 + w * L1 / 2

/-- `R3 = M1/L2 + w*L2/2`, the right end reaction. -/
def R3 (L1 L2 w : ℚ) : ℚ := M1 L1 L2 w / L2 + w * L2 / 2

/-- `R2 = w*L1 + w*L2 - R1 - R3`, the interior reaction. -/
def R2 (L1 L2 w : ℚ) : ℚ := w * L1 + w * L2 - R1 L1 L2 w - R3 L1 L2 w

/-- One step of the x-sampler shared by `getDeflectionEquation` and
`getBendingMomentEquation` (the `i > 0` branches of their `while` loop).
`prev` is `results[i-1]`, `prev2` is `results[i-2]` (`none` when it does not
exist yet), `Z1 = R1/load` and `Z2 = totalLength - R3/load` are the two
zero-shear positions. -/
def nextX (L1 T Z1 Z2 : ℚ) (prev : ℚ) (prev2 : Option ℚ) : ℚ :=
  if prev = 0 then prev + T / 10
  else if |prev - L1| ≤ T / 10 ∧ prev - L1 < 0 then L1
  else if prev < L1 ∧ prev ≠ Z1 ∧ prev2 ≠ some Z1 ∧ |prev - Z1| ≤ T / 10 then Z1
  else if |prev - T| < T / 10 then T
  else if L1 < prev ∧ prev ≠ Z2 ∧ prev2 ≠ some Z2 ∧ |prev - Z2| < T / 10 then Z2
  else if prev = Z1 ∨ prev = Z2 then prev2.getD 0 + T / 10
  else prev + T / 10

/-- The sampler `while` loop after the initial `x = 0` push: produces the
remaining x positions.  Continues while the produced `x < totalLength`. -/
def sampleAux (L1 T Z1 Z2 : ℚ) : ℕ → ℚ → Option ℚ → List ℚ
  | 0, _, _ => []
  | fuel + 1, prev, prev2 =>
    let x := nextX L1 T Z1 Z2 prev prev2
    x :: (if x < T then sampleAux L1 T Z1 Z2 fuel x (some prev) else [])

/-- The full x sequence of the deflection / bending-moment samplers
(`results` in the JS source): starts with `x = 0`; the loop stops right away
unless `0 < totalLength`. -/
def sampleXs (L1 L2 w : ℚ) : List ℚ :=
  let T := L1 + L2
  0 :: (if (0:ℚ) < T then
    sampleAux L1 T (R1 L1 L2 w / w) (T - R3 L1 L2 w / w) 100 0 none else [])

/-- JS local `calculateXLessThan12` of `getDeflectionEquation`. -/
def calculateXLessThan12 (L1 EI j2 w r1 c : ℚ) : ℚ :=
  (c / (24 * (EI / (1000 * 1000 * 1000))) *
    ((4 * r1 * c ^ 2) - (w * c ^ 3) + (w * L1 ^ 3) - (4 * r1 * L1 ^ 2))) * 1000 * j2

/-- JS local `calculateXGreaterThan13` of `getDeflectionEquation`. -/
def calculateXGreaterThan13 (L1 EI j2 w r1 r2 c : ℚ) : ℚ :=
  (((r1 * c / 6) * (c ^ 2 - L1 ^ 2)
      + (r2 * c / 6) * (c ^ 2 - 3 * L1 * c + 3 * L1 ^ 2)
      - (r2 * L1 ^ 3 / 6)
      - (w * c / 24) * (c ^ 3 - L1 ^ 3))
    / (EI / (1000 * 1000 * 1000))) * 1000 * j2

/-- JS `twoSpanUnequal.getDeflectionEquation`.  The loop writes
`resultsV[i-1] = calculateXLessThan12(results[i-1])`, overwritten with
`calculateXGreaterThan13` once `i >= 13` (i.e. for sample index `>= 12`), and
the final sample always gets `calculateXGreaterThan13`; so the y value of the
sample at index `j` depends on `j`, not on its position. -/
def getDeflectionEquation (beam : Beam) (load : ℚ) : ResponseCurve :=
  let L1 := beam.primarySpan
  let L2 := beam.secondarySpan
  let EI := beam.material.EI
  let j2 := beam.material.j2
  let r1 := R1 L1 L2 load
  let r2 := R2 L1 L2 load
  let xs := sampleXs L1 L2 load
  let ys := (List.range xs.length).map fun j =>
    if j + 1 = xs.length ∨ 12 ≤ j then calculateXGreaterThan13 L1 EI j2 load r1 r2 (xs.getD j 0)
    else calculateXLessThan12 L1 EI j2 load r1 (xs.getD j 0)
  ⟨xs, ys⟩

/-- JS local `countV` of `getBendingMomentEquation` (with
`Math.round(v * 100) / 100` as `roundTo 2`). -/
def countV (L1 T w r1 r2 c : ℚ) : ℚ :=
  if c = 0 ∨ c = T then 0
  else if c < L1 then roundTo 2 (-(r1 * c - 0.5 * w * c ^ 2))
  else if L1 < c then roundTo 2 (-((r1 * c + r2 * (c - L1)) - 0.5 * w * c ^ 2))
  else roundTo 2 (-(r1 * L1 - 0.5 * w * L1 ^ 2))

/-- JS `twoSpanUnequal.getBendingMomentEquation`: same sampler as deflection,
and every sample's y value is `countV` of its own x. -/
def getBendingMomentEquation (beam : Beam) (load : ℚ) : ResponseCurve :=
  let L1 := beam.primarySpan
  let L2 := beam.secondarySpan
  let T := L1 + L2
  let r1 := R1 L1 L2 load
  let r2 := R2 L1 L2 load
  let xs := sampleXs L1 L2 load
  ⟨xs, xs.map (countV L1 T load r1 r2)⟩

/-- One step of the shear-force x-sampler (`i > 0` branches).  Unlike the
deflection sampler it never inserts the zero-shear positions, but it inserts
the span boundary `L1` twice (once from each side).  The comparison against
`results[i-2]` when it does not exist yet (`undefined` in JS) is always
false. -/
def shearNextX (L1 T : ℚ) (prev : ℚ) (prev2 : Option ℚ) : ℚ :=
  if prev = 0 then prev + T / 10
  else if |prev - L1| ≤ T / 10 ∧ prev - L1 < 0 then L1
  else if prev - L1 = 0 ∧ (match prev2 with
      | some p => decide (|p - L1| ≤ T / 10) && decide (p ≠ prev)
      | none => false) = true then L1
  else if |prev - T| < T / 10 then T
  else prev + T / 10

/-- The shear sampler loop after the initial push: each computed `x` is pushed
as `parseFloat(x.toFixed(1))` (and that rounded value is what later iterations
read back), while the loop condition `x < totalLength` uses the raw `x`. -/
def shearAux (L1 T : ℚ) : ℕ → ℚ → Option ℚ → List ℚ
  | 0, _, _ => []
  | fuel + 1, prev, prev2 =>
    let x := shearNextX L1 T prev prev2
    roundTo 1 x :: (if x < T then shearAux L1 T fuel (roundTo 1 x) (some prev) else [])

/-- The full x sequence of the shear-force sampler. -/
def shearXs (L1 L2 : ℚ) : List ℚ :=
  let T := L1 + L2
  0 :: (if (0:ℚ) < T then shearAux L1 T 100 0 none else [])

/-- JS local `countV` of `getShearForceEquation`; `parseNum` is
`parseFloat(num.toFixed(2))`, i.e. `roundTo 2`.  `pk`/`nk` are the neighbour
samples used to decide which side of the `x = L1` discontinuity this sample
is. -/
def shearCountV (L1 T w r1 r2 ck pk nk : ℚ) : ℚ :=
  if ck = 0 then roundTo 2 r1
  else if ck = T then roundTo 2 ((r1 + r2) - w * T)
  else if ck = L1 ∧ pk - L1 < 0 then roundTo 2 (r1 - w * L1)
  else if ck = L1 ∧ 0 < nk - L1 then roundTo 2 ((r1 + r2) - w * L1)
  else if ck < L1 then roundTo 2 (r1 - w * ck)
  else roundTo 2 ((r1 + r2) - w * ck)

/-- JS `twoSpanUnequal.getShearForceEquation`: the y value of the sample at
index `j` is `countV(x_j, x_(j-1) || 0, x_(j+1) || 0)` (the final sample's
`nextKey` reads past the end and defaults to 0). -/
def getShearForceEquation (beam : Beam) (load : ℚ) : ResponseCurve :=
  let L1 := beam.primarySpan
  let L2 := beam.secondarySpan
  let T := L1 + L2
  let r1 := R1 L1 L2 load
  let r2 := R2 L1 L2 load
  let xs := shearXs L1 L2
  let ys := (List.range xs.length).map fun j =>
    shearCountV L1 T load r1 r2 (xs.getD j 0)
      (if j = 0 then 0 else xs.getD (j - 1) 0) (xs.getD (j + 1) 0)
  ⟨xs, ys⟩

end twoSpanUnequal

/-- The per-condition strategy object: the three methods every analyzer in
`BeamAnalysis.analyzer` exposes. -/
structure Analyzer where
  getDeflectionEquation : Beam → ℚ → ResponseCurve
  getBendingMomentEquation : Beam → ℚ → ResponseCurve
  getShearForceEquation : Beam → ℚ → ResponseCurve

def simplySupportedAnalyzer : Analyzer :=
  ⟨simplySupported.getDeflectionEquation, simplySupported.getBendingMomentEquation,
    simplySupported.getShearForceEquation⟩

def twoSpanUnequalAnalyzer : Analyzer :=
  ⟨twoSpanUnequal.getDeflectionEquation, twoSpanUnequal.getBendingMomentEquation,
    twoSpanUnequal.getShearForceEquation⟩

/-- The analyzer registry `this.analyzer` of `BeamAnalysis`: exactly two
registered condition tags. -/
def analyzerFor (condition : String) : Option Analyzer :=
  if condition = "simply-supported" then some simplySupportedAnalyzer
  else if condition = "two-span-unequal" then some twoSpanUnequalAnalyzer
  else none

/-- JS `BeamAnalysis.getDeflection`: dispatch on the condition; an
unregistered condition throws `Error('Invalid condition')`. -/
def getDeflection (beam : Beam) (load : ℚ) (condition : String) :
    Except String AnalysisResult :=
  match analyzerFor condition with
  | some a => .ok ⟨beam, load, a.getDeflectionEquation beam load⟩
  | none => .error "Invalid condition"

/-- JS `BeamAnalysis.getBendingMoment`. -/
def getBendingMoment (beam : Beam) (load : ℚ) (condition : String) :
    Except String AnalysisResult :=
  match analyzerFor condition with
  | some a => .ok ⟨beam, load, a.getBendingMomentEquation beam load⟩
  | none => .error "Invalid condition"

/-- JS `BeamAnalysis.getShearForce`. -/
def getShearForce (beam : Beam) (load : ℚ) (condition : String) :
    Except String AnalysisResult :=
  match analyzerFor condition with
  | some a => .ok ⟨beam, load, a.getShearForceEquation beam load⟩
  | none => .error "Invalid condition"

/-- The x positions the spec claims for the simply-supported sampler, after
the one-decimal rounding the code applies: `i * L / 10` for `i = 0..10`,
rounded.  (The spec's unrounded `i * L / 10` is recovered exactly when `10 L`
is an integer.) -/
def ssXsRounded (L : ℚ) : List ℚ := (List.range 11).map fun k : ℕ => roundTo 1 ((k : ℚ) * (L / 10))

/-! ### Helper lemmas -/

lemma ratFloor_eq_floor (q : ℚ) : ratFloor q = ⌊q⌋ := by
  rw [Rat.floor_def]; rfl

lemma roundHalfUp_eq_round (q : ℚ) : roundHalfUp q = round q := by
  rw [round_eq, roundHalfUp, ratFloor_eq_floor]

lemma roundTo_mono (d : ℕ) {a b : ℚ} (h : a ≤ b) : roundTo d a ≤ roundTo d b := by
  unfold roundTo
  have h2 : roundHalfUp (a * 10 ^ d) ≤ roundHalfUp (b * 10 ^ d) := by
    rw [roundHalfUp_eq_round, roundHalfUp_eq_round, round_eq, round_eq]
    have hp : (0:ℚ) < 10 ^ d := by positivity
    exact Int.floor_le_floor (by nlinarith)
  have h3 : ((roundHalfUp (a * 10 ^ d) : ℤ) : ℚ) ≤ ((roundHalfUp (b * 10 ^ d) : ℤ) : ℚ) := by
    exact_mod_cast h2
  exact div_le_div_of_nonneg_right h3 (by positivity)

lemma roundTo_int (d : ℕ) (n : ℤ) (q : ℚ) (hq : (n : ℚ) = q * 10 ^ d) :
    roundTo d q = q := by
  unfold roundTo
  rw [roundHalfUp_eq_round, ← hq, round_intCast, hq]
  field_simp

lemma roundTo_zero (d : ℕ) : roundTo d 0 = 0 := by
  unfold roundTo roundHalfUp
  rw [zero_mul, zero_add]
  have : ratFloor (1 / 2) = 0 := by decide
  rw [this]
  simp

lemma getD_range_map (f : ℕ → ℚ) (n j : ℕ) (hj : j < n) :
    (((List.range n).map f).getD j 0) = f j := by
  rw [List.getD_eq_getElem?_getD]
  simp [List.getElem?_map, List.getElem?_range, hj]

namespace simplySupported

lemma ssLoop_from (g : ℚ → ℚ) (L : ℚ) (hL : 0 < L) :
    ∀ (n k fuel : ℕ), k + n = 11 → n + 1 ≤ fuel →
      ssLoop g L (L / 10) fuel ((k : ℚ) * (L / 10)) =
        (((List.range' k n).map fun m : ℕ => roundTo 1 ((m : ℚ) * (L / 10))),
         ((List.range' k n).map fun m : ℕ => g (roundTo 1 ((m : ℚ) * (L / 10))))) := by
  have hu : (0:ℚ) < L / 10 := by positivity
  have hL10 : L = 10 * (L / 10) := by ring
  intro n
  induction n with
  | zero =>
    intro k fuel hk hf
    obtain ⟨f, rfl⟩ : ∃ f, fuel = f + 1 := ⟨fuel - 1, by omega⟩
    have hk11 : k = 11 := by omega
    subst hk11
    have hlt : L < ((11 : ℕ) : ℚ) * (L / 10) := by
      have h11 : ((11 : ℕ) : ℚ) * (L / 10) - L = L / 10 := by push_cast; ring
      linarith
    simp only [ssLoop]
    rw [if_neg (not_le.mpr hlt)]
    simp [List.range']
  | succ n ih =>
    intro k fuel hk hf
    obtain ⟨f, rfl⟩ : ∃ f, fuel = f + 1 := ⟨fuel - 1, by omega⟩
    have hkle : ((k : ℕ) : ℚ) * (L / 10) ≤ L := by
      have hk10 : ((k : ℕ) : ℚ) ≤ 10 := by exact_mod_cast (by omega : k ≤ 10)
      calc ((k : ℕ) : ℚ) * (L / 10) ≤ 10 * (L / 10) :=
            mul_le_mul_of_nonneg_right hk10 (le_of_lt hu)
        _ = L := by ring
    have hrec : ((k : ℕ) : ℚ) * (L / 10) + L / 10 = (((k + 1 : ℕ)) : ℚ) * (L / 10) := by
      push_cast; ring
    rw [List.range'_succ]
    simp only [ssLoop, if_pos hkle, List.map_cons]
    rw [hrec, ih (k + 1) f (by omega) (by omega)]

lemma ssLoop_eq_maps (g : ℚ → ℚ) (L : ℚ) (hL : 0 < L) :
    ssLoop g L (L / 10) 100 0 = (ssXsRounded L, (ssXsRounded L).map g) := by
  have h := ssLoop_from g L hL 11 0 100 (by omega) (by omega)
  have h0 : ((0 : ℕ) : ℚ) * (L / 10) = 0 := by norm_num
  rw [h0] at h
  rw [h, ssXsRounded, List.range_eq_range', List.map_map]
  rfl

lemma defl_eq (L s : ℚ) (nm : String) (EI j2 w : ℚ) (hL : 0 < L) :
    getDeflectionEquation ⟨L, s, ⟨nm, EI, j2⟩⟩ w =
      ⟨ssXsRounded L, (ssXsRounded L).map fun t => roundTo 1
        ((-((w * t) / (24 * EI)) * (L ^ 3 - 2 * L * t ^ 2 + t ^ 3) * j2 * 1000) * 1000000000)⟩ := by
  unfold getDeflectionEquation
  dsimp only
  rw [ssLoop_eq_maps _ _ hL]

lemma bm_eq (L s : ℚ) (nm : String) (EI j2 w : ℚ) (hL : 0 < L) :
    getBendingMomentEquation ⟨L, s, ⟨nm, EI, j2⟩⟩ w =
      ⟨ssXsRounded L, (ssXsRounded L).map fun t => roundTo 1 ((w * t / 2) * (L - t) * (-1))⟩ := by
  unfold getBendingMomentEquation
  dsimp only
  rw [ssLoop_eq_maps _ _ hL]

lemma shear_eq (L s : ℚ) (nm : String) (EI j2 w : ℚ) (hL : 0 < L) :
    getShearForceEquation ⟨L, s, ⟨nm, EI, j2⟩⟩ w =
      ⟨ssXsRounded L, (ssXsRounded L).map fun t => roundTo 1 (w * (L / 2 - t))⟩ := by
  unfold getShearForceEquation
  dsimp only
  rw [ssLoop_eq_maps _ _ hL]

end simplySupported

lemma ssXsRounded_getD_zero (L : ℚ) : (ssXsRounded L).getD 0 0 = 0 := by
  rw [ssXsRounded, getD_range_map _ _ 0 (by omega)]
  rw [Nat.cast_zero, zero_mul, roundTo_zero]

lemma ssXsRounded_length (L : ℚ) : (ssXsRounded L).length = 11 := by
  simp [ssXsRounded]

lemma ssXsRounded_getLast (L : ℚ) : (ssXsRounded L).getLast? = some (roundTo 1 L) := by
  rw [ssXsRounded, show (11 : ℕ) = 10 + 1 from rfl, List.range_succ, List.map_append]
  simp only [List.map_cons, List.map_nil, List.getLast?_concat]
  have h10 : ((10 : ℕ) : ℚ) * (L / 10) = L := by push_cast; ring
  rw [h10]

lemma ssXsRounded_chain (L : ℚ) (hL : 0 < L) :
    List.Chain' (· ≤ ·) (ssXsRounded L) := by
  rw [ssXsRounded, List.chain'_map, show (11 : ℕ) = 10 + 1 from rfl]
  rw [List.chain'_range_succ]
  intro m hm
  apply roundTo_mono
  have hu : (0:ℚ) ≤ L / 10 := by positivity
  have : ((m : ℕ) : ℚ) ≤ ((m + 1 : ℕ) : ℚ) := by exact_mod_cast (by omega : m ≤ m + 1)
  exact mul_le_mul_of_nonneg_right this hu

/-! ### Claim C1 -/

/-- Claim C1 (confirmed): every two-span analyzer operation computes the
interior-support moment `M1 = -(w*L2^3 + w*L1^3)/(8*(L1+L2))`, the end
reactions `R1 = M1/L1 + w*L1/2` and `R3 = M1/L2 + w*L2/2`, and the interior
reaction `R2 = w*L1 + w*L2 - R1 - R3` (shared by the three curve methods; the
shear curve's first sample is the 2-decimal rounding of `R1`), and equilibrium
`R1 + R2 + R3 = w*(L1+L2)` holds exactly in ℚ. -/
theorem twoSpan_reactions_equilibrium (L1 L2 w : ℚ) (m : Material)
    (h1 : 0 < L1) (h2 : 0 < L2) :
    twoSpanUnequal.M1 L1 L2 w = -((w * L2 ^ 3) + (w * L1 ^ 3)) / (8 * (L1 + L2)) ∧
    twoSpanUnequal.R1 L1 L2 w = twoSpanUnequal.M1 L1 L2 w / L1 + w * L1 / 2 ∧
    twoSpanUnequal.R3 L1 L2 w = twoSpanUnequal.M1 L1 L2 w / L2 + w * L2 / 2 ∧
    twoSpanUnequal.R2 L1 L2 w =
      w * L1 + w * L2 - twoSpanUnequal.R1 L1 L2 w - twoSpanUnequal.R3 L1 L2 w ∧
    twoSpanUnequal.R1 L1 L2 w + twoSpanUnequal.R2 L1 L2 w + twoSpanUnequal.R3 L1 L2 w =
      w * (L1 + L2) ∧
    (twoSpanUnequal.getShearForceEquation ⟨L1, L2, m⟩ w).y.getD 0 0 =
      roundTo 2 (twoSpanUnequal.R1 L1 L2 w) := by
  refine ⟨rfl, rfl, rfl, rfl, by unfold twoSpanUnequal.R2; ring, ?_⟩
  unfold twoSpanUnequal.getShearForceEquation
  dsimp only
  rw [getD_range_map _ _ 0 (by simp [twoSpanUnequal.shearXs])]
  simp [twoSpanUnequal.shearXs, twoSpanUnequal.shearCountV]

theorem twoSpan_reactions_equilibrium_witness :
    twoSpanUnequal.M1 6 4 10 = -((10 * 4 ^ 3) + (10 * 6 ^ 3)) / (8 * (6 + 4)) ∧
    twoSpanUnequal.R1 6 4 10 = twoSpanUnequal.M1 6 4 10 / 6 + 10 * 6 / 2 ∧
    twoSpanUnequal.R3 6 4 10 = twoSpanUnequal.M1 6 4 10 / 4 + 10 * 4 / 2 ∧
    twoSpanUnequal.R2 6 4 10 =
      10 * 6 + 10 * 4 - twoSpanUnequal.R1 6 4 10 - twoSpanUnequal.R3 6 4 10 ∧
    twoSpanUnequal.R1 6 4 10 + twoSpanUnequal.R2 6 4 10 + twoSpanUnequal.R3 6 4 10 =
      10 * (6 + 4) ∧
    (twoSpanUnequal.getShearForceEquation ⟨6, 4, ⟨"steel", 1, 1⟩⟩ 10).y.getD 0 0 =
      roundTo 2 (twoSpanUnequal.R1 6 4 10) :=
  twoSpan_reactions_equilibrium 6 4 10 ⟨"steel", 1, 1⟩ (by norm_num) (by norm_num)

/-! ### Claim C5 -/

/-- Claim C5 (confirmed): every sampled bending-moment value of the
simply-supported analyzer is `M(x) = -(w*x/2)*(L-x)` evaluated at the sampled
position (then rounded to one decimal as all outputs are); `M` vanishes at
both ends and takes the value `-w*L^2/8` at `L/2`; in the scenario `L = 8`,
`w = 5` the sample at `x = 4` has value `-40`. -/
theorem simplySupported_bendingMoment_correct (L w EI j2 s : ℚ) (nm : String) (hL : 0 < L) :
    ((simplySupported.getBendingMomentEquation ⟨L, s, ⟨nm, EI, j2⟩⟩ w).y =
      (simplySupported.getBendingMomentEquation ⟨L, s, ⟨nm, EI, j2⟩⟩ w).x.map
        fun t => roundTo 1 (-(w * t / 2) * (L - t))) ∧
    -(w * (0:ℚ) / 2) * (L - 0) = 0 ∧
    -(w * L / 2) * (L - L) = 0 ∧
    -(w * (L / 2) / 2) * (L - L / 2) = -(w * L ^ 2) / 8 ∧
    (simplySupported.getBendingMomentEquation ⟨8, 0, ⟨"steel", 1, 1⟩⟩ 5).x.getD 5 0 = 4 ∧
    (simplySupported.getBendingMomentEquation ⟨8, 0, ⟨"steel", 1, 1⟩⟩ 5).y.getD 5 0 = -40 := by
  refine ⟨?_, by ring, by ring, by ring, by decide, by decide⟩
  rw [simplySupported.bm_eq L s nm EI j2 w hL]
  have hg : (fun t : ℚ => roundTo 1 ((w * t / 2) * (L - t) * (-1)))
      = fun t : ℚ => roundTo 1 (-(w * t / 2) * (L - t)) := by
    funext t
    congr 1
    ring
  rw [← hg]

theorem simplySupported_bendingMoment_correct_witness :
    ((simplySupported.getBendingMomentEquation ⟨8, 0, ⟨"steel", 1, 1⟩⟩ 5).y =
      (simplySupported.getBendingMomentEquation ⟨8, 0, ⟨"steel", 1, 1⟩⟩ 5).x.map
        fun t => roundTo 1 (-(5 * t / 2) * (8 - t))) ∧
    (simplySupported.getBendingMomentEquation ⟨8, 0, ⟨"steel", 1, 1⟩⟩ 5).x.getD 5 0 = 4 ∧
    (simplySupported.getBendingMomentEquation ⟨8, 0, ⟨"steel", 1, 1⟩⟩ 5).y.getD 5 0 = -40 := by
  have h := simplySupported_bendingMoment_correct 8 5 1 1 0 "steel" (by norm_num)
  exact ⟨h.1, h.2.2.2.2.1, h.2.2.2.2.2⟩

/-! ### Claim C6 -/

/-- Claim C6 counterexample: for the span `L = 0.13` the simply-supported
x sequence is not `i*L/10` and does not contain `x = L` at all (the code
rounds every position to one decimal place), refuting "at the evenly spaced
positions x_i = i*L/10 including both x = 0 and x = L". -/
theorem simplySupported_sampling_cex :
    (13/100 : ℚ) ∉ (simplySupported.getShearForceEquation ⟨13/100, 0, ⟨"steel", 1, 1⟩⟩ 1).x := by
  decide

/-- Claim C6 (amended): each of the three simply-supported curves has exactly
11 samples, at the positions `i*L/10` for `i = 0..10` each rounded to one
decimal place; the first position is exactly 0; the last position equals `L`
exactly whenever `10*L` is an integer; and for an integer span `L` every
position equals `i*L/10` exactly, recovering the original evenly-spaced claim
including both endpoints. -/
theorem simplySupported_sampling_rounded (L w EI j2 s : ℚ) (nm : String) (hL : 0 < L) :
    (simplySupported.getDeflectionEquation ⟨L, s, ⟨nm, EI, j2⟩⟩ w).x = ssXsRounded L ∧
    (simplySupported.getBendingMomentEquation ⟨L, s, ⟨nm, EI, j2⟩⟩ w).x = ssXsRounded L ∧
    (simplySupported.getShearForceEquation ⟨L, s, ⟨nm, EI, j2⟩⟩ w).x = ssXsRounded L ∧
    (ssXsRounded L).length = 11 ∧
    (ssXsRounded L).getD 0 0 = 0 ∧
    (∀ n : ℤ, (n : ℚ) = 10 * L → (ssXsRounded L).getLast? = some L) ∧
    (∀ n : ℤ, (n : ℚ) = L → ∀ i, i < 11 →
      (ssXsRounded L).getD i 0 = (i : ℚ) * L / 10) := by
  refine ⟨?_, ?_, ?_, ssXsRounded_length L, ssXsRounded_getD_zero L, ?_, ?_⟩
  · rw [simplySupported.defl_eq L s nm EI j2 w hL]
  · rw [simplySupported.bm_eq L s nm EI j2 w hL]
  · rw [simplySupported.shear_eq L s nm EI j2 w hL]
  · intro n hn
    rw [ssXsRounded_getLast L]
    have : roundTo 1 L = L := roundTo_int 1 n L (by rw [hn]; ring)
    rw [this]
  · intro n hn i hi
    rw [ssXsRounded, getD_range_map _ _ i hi]
    have : roundTo 1 ((i : ℚ) * (L / 10)) = (i : ℚ) * (L / 10) :=
      roundTo_int 1 ((i : ℤ) * n) ((i : ℚ) * (L / 10)) (by push_cast; rw [← hn]; ring)
    rw [this]
    ring

theorem simplySupported_sampling_rounded_witness :
    (simplySupported.getDeflectionEquation ⟨2, 0, ⟨"steel", 1, 1⟩⟩ 1).x = ssXsRounded 2 ∧
    (ssXsRounded 2).length = 11 ∧
    (ssXsRounded 2).getD 0 0 = 0 ∧
    (ssXsRounded 2).getLast? = some 2 := by
  have h := simplySupported_sampling_rounded 2 1 1 1 0 "steel" (by norm_num)
  exact ⟨h.1, h.2.2.2.1, h.2.2.2.2.1, h.2.2.2.2.2.1 20 (by norm_num)⟩

/-! ### Claim C7 -/

/-- Claim C7 counterexample: for `L = 1`, `w = 24`, `EI = 10^12`, `j2 = 1`,
the deflection sample at `x = 0.3` is `-0.3` (the code rounds half away from
the origin at one decimal), while truncating the claimed closed form times
`10^9` to one decimal gives `-0.2`; so "the final scaled value is truncated to
one decimal place" fails. -/
theorem simplySupported_deflection_trunc_cex :
    (simplySupported.getDeflectionEquation ⟨1, 0, ⟨"steel", 1000000000000, 1⟩⟩ 24).y.getD 3 0
      = -3/10 ∧
    truncTo 1 ((-((24 * (3/10)) / (24 * 1000000000000)) *
      (1 ^ 3 - 2 * 1 * (3/10) ^ 2 + (3/10) ^ 3) * 1 * 1000) * 1000000000) = -2/10 ∧
    ((-3 : ℚ)/10) ≠ -2/10 := by
  refine ⟨by decide, by decide, by norm_num⟩

/-- Claim C7 (amended): every simply-supported deflection sample's value is
`-(w*x)/(24*EI) * (L^3 - 2*L*x^2 + x^3) * j2 * 1000` at the sampled position,
multiplied by the fixed display factor `10^9`, and the final scaled value is
rounded (half toward +∞) — not truncated — to one decimal place. -/
theorem simplySupported_deflection_formula (L w EI j2 s : ℚ) (nm : String) (hL : 0 < L) :
    (simplySupported.getDeflectionEquation ⟨L, s, ⟨nm, EI, j2⟩⟩ w).y =
      (simplySupported.getDeflectionEquation ⟨L, s, ⟨nm, EI, j2⟩⟩ w).x.map
        fun t => roundTo 1
          ((-((w * t) / (24 * EI)) * (L ^ 3 - 2 * L * t ^ 2 + t ^ 3) * j2 * 1000) * 1000000000) := by
  rw [simplySupported.defl_eq L s nm EI j2 w hL]

theorem simplySupported_deflection_formula_witness :
    (simplySupported.getDeflectionEquation ⟨1, 0, ⟨"steel", 1000000000000, 1⟩⟩ 24).y =
      (simplySupported.getDeflectionEquation ⟨1, 0, ⟨"steel", 1000000000000, 1⟩⟩ 24).x.map
        fun t => roundTo 1
          ((-((24 * t) / (24 * 1000000000000)) * (1 ^ 3 - 2 * 1 * t ^ 2 + t ^ 3) * 1 * 1000)
            * 1000000000) :=
  simplySupported_deflection_formula 1 24 1000000000000 1 0 "steel" (by norm_num)

/-! ### Claim C10 -/

/-- Claim C10 (confirmed): for the simply-supported condition, every engine
operation's `ResponseCurve` is independent of the beam's `secondarySpan`: two
calls differing only in `secondarySpan` return equal curves (both at the
analyzer level and through the engine dispatch). -/
theorem simplySupported_ignores_secondarySpan (p s1 s2 : ℚ) (m : Material) (w : ℚ) :
    simplySupported.getDeflectionEquation ⟨p, s1, m⟩ w =
      simplySupported.getDeflectionEquation ⟨p, s2, m⟩ w ∧
    simplySupported.getBendingMomentEquation ⟨p, s1, m⟩ w =
      simplySupported.getBendingMomentEquation ⟨p, s2, m⟩ w ∧
    simplySupported.getShearForceEquation ⟨p, s1, m⟩ w =
      simplySupported.getShearForceEquation ⟨p, s2, m⟩ w ∧
    (getDeflection ⟨p, s1, m⟩ w "simply-supported").map (fun r => r.equation) =
      (getDeflection ⟨p, s2, m⟩ w "simply-supported").map (fun r => r.equation) ∧
    (getBendingMoment ⟨p, s1, m⟩ w "simply-supported").map (fun r => r.equation) =
      (getBendingMoment ⟨p, s2, m⟩ w "simply-supported").map (fun r => r.equation) ∧
    (getShearForce ⟨p, s1, m⟩ w "simply-supported").map (fun r => r.equation) =
      (getShearForce ⟨p, s2, m⟩ w "simply-supported").map (fun r => r.equation) :=
  ⟨rfl, rfl, rfl, rfl, rfl, rfl⟩

/-! ### Claim C8 -/

/-- Claim C8 counterexample: the error raised for the unregistered condition
`"three-span"` is the fixed message `Invalid condition`, which does not name
(contain) the offending condition, refuting "an InvalidConditionError that
names the unrecognized condition". -/
theorem invalid_condition_unnamed_cex :
    getDeflection ⟨1, 1, ⟨"steel", 1, 1⟩⟩ 1 "three-span" = Except.error "Invalid condition" ∧
    ¬ (("three-span".data) <:+: ("Invalid condition".data)) :=
  ⟨rfl, by decide⟩

/-- Claim C8 (amended): for every beam and load, calling any of the three
engine operations with a condition other than the two registered tags fails
with the error `Invalid condition` (a fixed message that does not name the
condition), producing no `ResponseCurve`, no partial result and no substituted
default condition. -/
theorem invalid_condition_rejected (beam : Beam) (load : ℚ) (c : String)
    (hc1 : c ≠ "simply-supported") (hc2 : c ≠ "two-span-unequal") :
    getDeflection beam load c = Except.error "Invalid condition" ∧
    getBendingMoment beam load c = Except.error "Invalid condition" ∧
    getShearForce beam load c = Except.error "Invalid condition" := by
  unfold getDeflection getBendingMoment getShearForce analyzerFor
  rw [if_neg hc1, if_neg hc2]
  exact ⟨rfl, rfl, rfl⟩

theorem invalid_condition_rejected_witness :
    getDeflection ⟨1, 1, ⟨"steel", 1, 1⟩⟩ 1 "three-span" = Except.error "Invalid condition" ∧
    getBendingMoment ⟨1, 1, ⟨"steel", 1, 1⟩⟩ 1 "three-span" = Except.error "Invalid condition" ∧
    getShearForce ⟨1, 1, ⟨"steel", 1, 1⟩⟩ 1 "three-span" = Except.error "Invalid condition" :=
  invalid_condition_rejected ⟨1, 1, ⟨"steel", 1, 1⟩⟩ 1 "three-span" (by decide) (by decide)

/-! ### Claim C4 -/

lemma calcL12_at_zero (L1 EI j2 w r1 : ℚ) :
    twoSpanUnequal.calculateXLessThan12 L1 EI j2 w r1 0 = 0 := by
  unfold twoSpanUnequal.calculateXLessThan12
  ring

set_option maxHeartbeats 2000000 in
/-- The right deflection closed form vanishes at `x = totalLength` (for the
reactions computed from the spans): the boundary condition the double
integration enforces. -/
lemma calcG13_at_totalLength (L1 L2 EI j2 w : ℚ) (h1 : 0 < L1) (h2 : 0 < L2) (hEI : EI ≠ 0) :
    twoSpanUnequal.calculateXGreaterThan13 L1 EI j2 w (twoSpanUnequal.R1 L1 L2 w)
      (twoSpanUnequal.R2 L1 L2 w) (L1 + L2) = 0 := by
  unfold twoSpanUnequal.calculateXGreaterThan13 twoSpanUnequal.R2 twoSpanUnequal.R1
    twoSpanUnequal.R3 twoSpanUnequal.M1
  have h1' : L1 ≠ 0 := ne_of_gt h1
  have h2' : L2 ≠ 0 := ne_of_gt h2
  have hT : L1 + L2 ≠ 0 := by positivity
  field_simp
  ring

lemma getLast?_range_map (f : ℕ → ℚ) (n : ℕ) (hn : 0 < n) :
    ((List.range n).map f).getLast? = some (f (n - 1)) := by
  rw [List.getLast?_eq_getElem?]
  simp only [List.length_map, List.length_range]
  rw [List.getElem?_map]
  simp [List.getElem?_range, Nat.sub_lt hn Nat.one_pos]

lemma getLast?_eq_getD (l : List ℚ) (hl : 0 < l.length) :
    l.getLast? = some (l.getD (l.length - 1) 0) := by
  have h : l.length - 1 < l.length := Nat.sub_lt hl Nat.one_pos
  rw [List.getLast?_eq_getElem?, List.getElem?_eq_getElem h]
  rw [List.getD_eq_getElem?_getD, List.getElem?_eq_getElem h]
  rfl

lemma sampleAux_succ (L1 T Z1 Z2 : ℚ) (fuel : ℕ) (prev : ℚ) (prev2 : Option ℚ) :
    twoSpanUnequal.sampleAux L1 T Z1 Z2 (fuel + 1) prev prev2 =
      twoSpanUnequal.nextX L1 T Z1 Z2 prev prev2 ::
        (if twoSpanUnequal.nextX L1 T Z1 Z2 prev prev2 < T
         then twoSpanUnequal.sampleAux L1 T Z1 Z2 fuel
           (twoSpanUnequal.nextX L1 T Z1 Z2 prev prev2) (some prev) else []) := rfl

lemma twoSpan_sampleXs_len2 (L1 L2 w : ℚ) (hT : (0:ℚ) < L1 + L2) :
    2 ≤ (twoSpanUnequal.sampleXs L1 L2 w).length := by
  unfold twoSpanUnequal.sampleXs
  dsimp only
  rw [if_pos hT, show (100:ℕ) = 99 + 1 from rfl, sampleAux_succ]
  simp only [List.length_cons]
  omega

lemma twoSpan_sampleXs_head (L1 L2 w : ℚ) :
    (twoSpanUnequal.sampleXs L1 L2 w).getD 0 0 = 0 := by
  unfold twoSpanUnequal.sampleXs
  rfl

/-- Claim C4 counterexample: for `L1 = 1`, `L2 = 2`, `w = 1`, `EI = 10^9`,
`j2 = 1`, the deflection sample at index 6 sits at `x = 1.3 > L1`, yet its
value is the LEFT closed form (`calculateXLessThan12`), not the right one —
the code picks the formula by sample index (`< 12` vs `>= 12`/last), not by
position; so "computed by the right closed-form expression whenever x > L1"
is false. -/
theorem twoSpan_deflection_index_split_cex :
    (twoSpanUnequal.getDeflectionEquation ⟨1, 2, ⟨"steel", 1000000000, 1⟩⟩ 1).x.getD 6 0
      = 13/10 ∧
    (1:ℚ) < 13/10 ∧
    (twoSpanUnequal.getDeflectionEquation ⟨1, 2, ⟨"steel", 1000000000, 1⟩⟩ 1).y.getD 6 0
      = twoSpanUnequal.calculateXLessThan12 1 1000000000 1 1 (twoSpanUnequal.R1 1 2 1) (13/10) ∧
    twoSpanUnequal.calculateXLessThan12 1 1000000000 1 1 (twoSpanUnequal.R1 1 2 1) (13/10)
      = -923/20 ∧
    twoSpanUnequal.calculateXGreaterThan13 1 1000000000 1 1 (twoSpanUnequal.R1 1 2 1)
      (twoSpanUnequal.R2 1 2 1) (13/10) = -5899/160 ∧
    ((-923:ℚ)/20) ≠ -5899/160 := by
  refine ⟨by decide, by norm_num, by decide, by decide, by decide, by norm_num⟩

/-- Claim C4 (amended): the two-span deflection y value at sample index `j` is
computed by the left closed form (`calculateXLessThan12`) when `j < 12` and
`j` is not the final index, and by the right closed form
(`calculateXGreaterThan13`) when `j ≥ 12` or `j` is the final index — the
choice depends on the sample's index, not on its position relative to `L1`
(in the canonical 14-sample layout the two coincide); the deflection is zero
at `x = 0`, and whenever the final sample lies at `x = totalLength` its value
is zero. -/
theorem twoSpan_deflection_index_formula (L1 L2 EI j2 w : ℚ) (nm : String)
    (h1 : 0 < L1) (h2 : 0 < L2) (hEI : EI ≠ 0) :
    (∀ j, j < (twoSpanUnequal.getDeflectionEquation ⟨L1, L2, ⟨nm, EI, j2⟩⟩ w).x.length →
      (twoSpanUnequal.getDeflectionEquation ⟨L1, L2, ⟨nm, EI, j2⟩⟩ w).y.getD j 0 =
        if j + 1 = (twoSpanUnequal.getDeflectionEquation ⟨L1, L2, ⟨nm, EI, j2⟩⟩ w).x.length
            ∨ 12 ≤ j
        then twoSpanUnequal.calculateXGreaterThan13 L1 EI j2 w (twoSpanUnequal.R1 L1 L2 w)
          (twoSpanUnequal.R2 L1 L2 w)
          ((twoSpanUnequal.getDeflectionEquation ⟨L1, L2, ⟨nm, EI, j2⟩⟩ w).x.getD j 0)
        else twoSpanUnequal.calculateXLessThan12 L1 EI j2 w (twoSpanUnequal.R1 L1 L2 w)
          ((twoSpanUnequal.getDeflectionEquation ⟨L1, L2, ⟨nm, EI, j2⟩⟩ w).x.getD j 0)) ∧
    (twoSpanUnequal.getDeflectionEquation ⟨L1, L2, ⟨nm, EI, j2⟩⟩ w).y.getD 0 0 = 0 ∧
    ((twoSpanUnequal.getDeflectionEquation ⟨L1, L2, ⟨nm, EI, j2⟩⟩ w).x.getLast?
        = some (L1 + L2) →
      (twoSpanUnequal.getDeflectionEquation ⟨L1, L2, ⟨nm, EI, j2⟩⟩ w).y.getLast? = some 0) := by
  have hT : (0:ℚ) < L1 + L2 := by linarith
  have hlen2 := twoSpan_sampleXs_len2 L1 L2 w hT
  unfold twoSpanUnequal.getDeflectionEquation
  dsimp only
  refine ⟨?_, ?_, ?_⟩
  · intro j hj
    rw [getD_range_map _ _ j hj]
  · rw [getD_range_map _ _ 0 (by omega)]
    rw [if_neg (by omega)]
    rw [twoSpan_sampleXs_head]
    exact calcL12_at_zero L1 EI j2 w (twoSpanUnequal.R1 L1 L2 w)
  · intro hlast
    rw [getLast?_eq_getD _ (by omega)] at hlast
    have e : (twoSpanUnequal.sampleXs L1 L2 w).getD
        ((twoSpanUnequal.sampleXs L1 L2 w).length - 1) 0 = L1 + L2 :=
      Option.some.inj hlast
    rw [getLast?_range_map _ _ (by omega)]
    rw [if_pos (Or.inl (by omega))]
    rw [e, calcG13_at_totalLength L1 L2 EI j2 w h1 h2 hEI]

theorem twoSpan_deflection_index_formula_witness :
    (twoSpanUnequal.getDeflectionEquation ⟨1, 2, ⟨"steel", 1000000000, 1⟩⟩ 1).y.getD 0 0 = 0 :=
  (twoSpan_deflection_index_formula 1 2 1000000000 1 1 "steel"
    (by norm_num) (by norm_num) (by norm_num)).2.1

/-! ### Claim C2 -/

/-- Claim C2 counterexample: for `L1 = 1`, `L2 = 2`, `w = 1` the first shear
sample is `0.13`, the two-decimal rounding of `R1 = 0.125`, not `R1` itself —
every shear y value passes through `parseFloat(num.toFixed(2))` — refuting
"the first sample's value is R1". -/
theorem twoSpan_shear_rounded_values_cex :
    (twoSpanUnequal.getShearForceEquation ⟨1, 2, ⟨"steel", 1, 1⟩⟩ 1).y.getD 0 0 = 13/100 ∧
    twoSpanUnequal.R1 1 2 1 = 1/8 ∧
    ((13:ℚ)/100) ≠ 1/8 := by
  refine ⟨by decide, by decide, by norm_num⟩

/-- Claim C2 (amended): shear y values are rounded to two decimals.  On the
reference scenario `L1 = 6`, `L2 = 4`, `w = 10` the shear curve contains two
consecutive samples at `x = L1` whose values are `roundTo 2 (R1 - w*L1)`
(left side) and `roundTo 2 (R1 + R2 - w*L1)` (right side), differing by `R2`
up to the 0.01 output rounding; the first sample's value is `roundTo 2 R1` and
the last sample's value is `roundTo 2 (R1 + R2 - w*totalLength)`. -/
theorem twoSpan_shear_discontinuity_scenario :
    (twoSpanUnequal.getShearForceEquation ⟨6, 4, ⟨"steel", 1, 1⟩⟩ 10).x.getD 6 0 = 6 ∧
    (twoSpanUnequal.getShearForceEquation ⟨6, 4, ⟨"steel", 1, 1⟩⟩ 10).x.getD 7 0 = 6 ∧
    (twoSpanUnequal.getShearForceEquation ⟨6, 4, ⟨"steel", 1, 1⟩⟩ 10).y.getD 6 0 =
      roundTo 2 (twoSpanUnequal.R1 6 4 10 - 10 * 6) ∧
    (twoSpanUnequal.getShearForceEquation ⟨6, 4, ⟨"steel", 1, 1⟩⟩ 10).y.getD 7 0 =
      roundTo 2 (twoSpanUnequal.R1 6 4 10 + twoSpanUnequal.R2 6 4 10 - 10 * 6) ∧
    |(twoSpanUnequal.getShearForceEquation ⟨6, 4, ⟨"steel", 1, 1⟩⟩ 10).y.getD 7 0 -
      (twoSpanUnequal.getShearForceEquation ⟨6, 4, ⟨"steel", 1, 1⟩⟩ 10).y.getD 6 0 -
      twoSpanUnequal.R2 6 4 10| ≤ 1/100 ∧
    (twoSpanUnequal.getShearForceEquation ⟨6, 4, ⟨"steel", 1, 1⟩⟩ 10).y.getD 0 0 =
      roundTo 2 (twoSpanUnequal.R1 6 4 10) ∧
    (twoSpanUnequal.getShearForceEquation ⟨6, 4, ⟨"steel", 1, 1⟩⟩ 10).y.getLast? =
      some (roundTo 2 (twoSpanUnequal.R1 6 4 10 + twoSpanUnequal.R2 6 4 10 - 10 * 10)) := by
  refine ⟨by decide, by decide, by decide, by decide, by decide, by decide, by decide⟩

/-! ### Claim C3 -/

/-- Claim C3 counterexample: on the scenario `L1 = 6`, `L2 = 4`, `w = 10` the
shear-force x sequence does not contain the zero-shear breakpoint
`R1/w = 29/12` at all (the shear sampler never inserts the zero-shear
positions), refuting "each of the three curves contains ... R1/w". -/
theorem twoSpan_shear_missing_breakpoint_cex :
    twoSpanUnequal.R1 6 4 10 / 10 = 29/12 ∧
    (29/12 : ℚ) ∉ (twoSpanUnequal.getShearForceEquation ⟨6, 4, ⟨"steel", 1, 1⟩⟩ 10).x := by
  refine ⟨by decide, by decide⟩

/-- Claim C3 (amended): the deflection and bending-moment x sequences contain
the exact breakpoints `L1`, `R1/w` and `totalLength - R3/w` (verified on the
reference scenario `L1 = 6`, `L2 = 4`, `w = 10`, where they are `6`, `29/12`
and `71/8`); the shear-force x sequence contains `L1` but not the zero-shear
breakpoints. -/
theorem twoSpan_breakpoints_scenario :
    twoSpanUnequal.R1 6 4 10 / 10 = 29/12 ∧
    (6:ℚ) + 4 - twoSpanUnequal.R3 6 4 10 / 10 = 71/8 ∧
    ((6:ℚ) ∈ (twoSpanUnequal.getDeflectionEquation ⟨6, 4, ⟨"steel", 1, 1⟩⟩ 10).x ∧
      (29/12:ℚ) ∈ (twoSpanUnequal.getDeflectionEquation ⟨6, 4, ⟨"steel", 1, 1⟩⟩ 10).x ∧
      (71/8:ℚ) ∈ (twoSpanUnequal.getDeflectionEquation ⟨6, 4, ⟨"steel", 1, 1⟩⟩ 10).x) ∧
    ((6:ℚ) ∈ (twoSpanUnequal.getBendingMomentEquation ⟨6, 4, ⟨"steel", 1, 1⟩⟩ 10).x ∧
      (29/12:ℚ) ∈ (twoSpanUnequal.getBendingMomentEquation ⟨6, 4, ⟨"steel", 1, 1⟩⟩ 10).x ∧
      (71/8:ℚ) ∈ (twoSpanUnequal.getBendingMomentEquation ⟨6, 4, ⟨"steel", 1, 1⟩⟩ 10).x) ∧
    ((6:ℚ) ∈ (twoSpanUnequal.getShearForceEquation ⟨6, 4, ⟨"steel", 1, 1⟩⟩ 10).x ∧
      (29/12:ℚ) ∉ (twoSpanUnequal.getShearForceEquation ⟨6, 4, ⟨"steel", 1, 1⟩⟩ 10).x) := by
  refine ⟨by decide, by decide, ⟨by decide, by decide, by decide⟩,
    ⟨by decide, by decide, by decide⟩, ⟨by decide, by decide⟩⟩

/-! ### Claim C9 -/

/-- Executable non-decreasing check (the `Decidable` instance of
`List.Chain'` is tactic-defined and does not kernel-reduce). -/
def isNonDecr : List ℚ → Bool
  | [] => true
  | [_] => true
  | a :: b :: l => decide (a ≤ b) && isNonDecr (b :: l)

lemma isNonDecr_iff : ∀ l : List ℚ, isNonDecr l = true ↔ List.Chain' (· ≤ ·) l
  | [] => by simp [isNonDecr]
  | [a] => by simp [isNonDecr]
  | a :: b :: l => by
    rw [isNonDecr, List.chain'_cons, Bool.and_eq_true, decide_eq_true_iff,
      isNonDecr_iff (b :: l)]

lemma twoSpan_shearXs_head (L1 L2 : ℚ) :
    (twoSpanUnequal.shearXs L1 L2).getD 0 0 = 0 := by
  unfold twoSpanUnequal.shearXs
  rfl

/-- Claim C9 counterexample: for `L1 = 1`, `L2 = 2`, `w = 1` the
bending-moment x sequence goes `0, 0.3, 0.125, ...` — the sampler inserts the
zero-shear breakpoint `R1/w = 0.125` BELOW the previous sample — so the
x sequence of a successful two-span call is not non-decreasing. -/
theorem twoSpan_x_not_monotone_cex :
    (twoSpanUnequal.getBendingMomentEquation ⟨1, 2, ⟨"steel", 1, 1⟩⟩ 1).x.getD 1 0 = 3/10 ∧
    (twoSpanUnequal.getBendingMomentEquation ⟨1, 2, ⟨"steel", 1, 1⟩⟩ 1).x.getD 2 0 = 1/8 ∧
    ¬ List.Chain' (· ≤ ·) (twoSpanUnequal.getBendingMomentEquation ⟨1, 2, ⟨"steel", 1, 1⟩⟩ 1).x := by
  refine ⟨by decide, by decide, ?_⟩
  rw [← isNonDecr_iff]
  decide

/-- Claim C9 (amended): for every successful call, the x and y sequences have
equal length and the x sequence starts at exactly 0.  For the simply-supported
condition the x sequence is moreover non-decreasing and its last entry is
`roundTo 1 L` — equal to `totalLength = L` whenever `10*L` is an integer.  For
the two-span condition the deflection and bending-moment x sequences are NOT
non-decreasing in general (see the counterexample); on the reference scenario
`L1 = 6`, `L2 = 4`, `w = 10` all three curves end at `totalLength = 10` and
the shear x sequence is non-decreasing. -/
theorem curve_shape_properties (L w EI j2 s : ℚ) (nm : String) (beam : Beam) (load : ℚ)
    (hL : 0 < L) :
    ((simplySupported.getDeflectionEquation ⟨L, s, ⟨nm, EI, j2⟩⟩ w).x.length =
        (simplySupported.getDeflectionEquation ⟨L, s, ⟨nm, EI, j2⟩⟩ w).y.length ∧
      (simplySupported.getBendingMomentEquation ⟨L, s, ⟨nm, EI, j2⟩⟩ w).x.length =
        (simplySupported.getBendingMomentEquation ⟨L, s, ⟨nm, EI, j2⟩⟩ w).y.length ∧
      (simplySupported.getShearForceEquation ⟨L, s, ⟨nm, EI, j2⟩⟩ w).x.length =
        (simplySupported.getShearForceEquation ⟨L, s, ⟨nm, EI, j2⟩⟩ w).y.length) ∧
    (List.Chain' (· ≤ ·) (simplySupported.getDeflectionEquation ⟨L, s, ⟨nm, EI, j2⟩⟩ w).x ∧
      (simplySupported.getDeflectionEquation ⟨L, s, ⟨nm, EI, j2⟩⟩ w).x.getD 0 0 = 0 ∧
      (simplySupported.getDeflectionEquation ⟨L, s, ⟨nm, EI, j2⟩⟩ w).x.getLast? =
        some (roundTo 1 L) ∧
      (∀ n : ℤ, (n : ℚ) = 10 * L →
        (simplySupported.getDeflectionEquation ⟨L, s, ⟨nm, EI, j2⟩⟩ w).x.getLast? = some L) ∧
      (simplySupported.getBendingMomentEquation ⟨L, s, ⟨nm, EI, j2⟩⟩ w).x =
        (simplySupported.getDeflectionEquation ⟨L, s, ⟨nm, EI, j2⟩⟩ w).x ∧
      (simplySupported.getShearForceEquation ⟨L, s, ⟨nm, EI, j2⟩⟩ w).x =
        (simplySupported.getDeflectionEquation ⟨L, s, ⟨nm, EI, j2⟩⟩ w).x) ∧
    ((twoSpanUnequal.getDeflectionEquation beam load).x.length =
        (twoSpanUnequal.getDeflectionEquation beam load).y.length ∧
      (twoSpanUnequal.getBendingMomentEquation beam load).x.length =
        (twoSpanUnequal.getBendingMomentEquation beam load).y.length ∧
      (twoSpanUnequal.getShearForceEquation beam load).x.length =
        (twoSpanUnequal.getShearForceEquation beam load).y.length ∧
      (twoSpanUnequal.getDeflectionEquation beam load).x.getD 0 0 = 0 ∧
      (twoSpanUnequal.getBendingMomentEquation beam load).x.getD 0 0 = 0 ∧
      (twoSpanUnequal.getShearForceEquation beam load).x.getD 0 0 = 0) ∧
    ((twoSpanUnequal.getDeflectionEquation ⟨6, 4, ⟨"steel", 1, 1⟩⟩ 10).x.getLast? = some 10 ∧
      (twoSpanUnequal.getBendingMomentEquation ⟨6, 4, ⟨"steel", 1, 1⟩⟩ 10).x.getLast? = some 10 ∧
      (twoSpanUnequal.getShearForceEquation ⟨6, 4, ⟨"steel", 1, 1⟩⟩ 10).x.getLast? = some 10 ∧
      List.Chain' (· ≤ ·) (twoSpanUnequal.getShearForceEquation ⟨6, 4, ⟨"steel", 1, 1⟩⟩ 10).x) := by
  refine ⟨⟨?_, ?_, ?_⟩, ⟨?_, ?_, ?_, ?_, ?_, ?_⟩, ⟨?_, ?_, ?_, ?_, ?_, ?_⟩,
    ⟨by decide, by decide, by decide, by rw [← isNonDecr_iff]; decide⟩⟩
  · rw [simplySupported.defl_eq L s nm EI j2 w hL]
    simp [List.length_map]
  · rw [simplySupported.bm_eq L s nm EI j2 w hL]
    simp [List.length_map]
  · rw [simplySupported.shear_eq L s nm EI j2 w hL]
    simp [List.length_map]
  · rw [simplySupported.defl_eq L s nm EI j2 w hL]
    exact ssXsRounded_chain L hL
  · rw [simplySupported.defl_eq L s nm EI j2 w hL]
    exact ssXsRounded_getD_zero L
  · rw [simplySupported.defl_eq L s nm EI j2 w hL]
    exact ssXsRounded_getLast L
  · intro n hn
    rw [simplySupported.defl_eq L s nm EI j2 w hL]
    rw [ssXsRounded_getLast L, roundTo_int 1 n L (by rw [hn]; ring)]
  · rw [simplySupported.bm_eq L s nm EI j2 w hL, simplySupported.defl_eq L s nm EI j2 w hL]
  · rw [simplySupported.shear_eq L s nm EI j2 w hL, simplySupported.defl_eq L s nm EI j2 w hL]
  · unfold twoSpanUnequal.getDeflectionEquation
    dsimp only
    simp [List.length_map, List.length_range]
  · unfold twoSpanUnequal.getBendingMomentEquation
    dsimp only
    simp [List.length_map]
  · unfold twoSpanUnequal.getShearForceEquation
    dsimp only
    simp [List.length_map, List.length_range]
  · exact twoSpan_sampleXs_head _ _ _
  · exact twoSpan_sampleXs_head _ _ _
  · exact twoSpan_shearXs_head _ _

theorem curve_shape_properties_witness :
    (simplySupported.getDeflectionEquation ⟨2, 0, ⟨"steel", 1, 1⟩⟩ 1).x.length =
      (simplySupported.getDeflectionEquation ⟨2, 0, ⟨"steel", 1, 1⟩⟩ 1).y.length ∧
    (simplySupported.getBendingMomentEquation ⟨2, 0, ⟨"steel", 1, 1⟩⟩ 1).x.length =
      (simplySupported.getBendingMomentEquation ⟨2, 0, ⟨"steel", 1, 1⟩⟩ 1).y.length ∧
    (simplySupported.getShearForceEquation ⟨2, 0, ⟨"steel", 1, 1⟩⟩ 1).x.length =
      (simplySupported.getShearForceEquation ⟨2, 0, ⟨"steel", 1, 1⟩⟩ 1).y.length :=
  (curve_shape_properties 2 1 1 1 0 "steel" ⟨1, 2, ⟨"steel", 1, 1⟩⟩ 1 (by norm_num)).1
